import Mathlib

/-!
Verification of the Express-jobly backend core against its design
specification.  The definitions below are a shallow embedding of the
JavaScript source:

  - src/middleware/auth.js          (authorization decision engine)
  - src/unnamed/part_000            (Company and Job model classes)
  - src/unnamed/part_001            (sqlForPartialUpdate helper)

Strings, branch structure and emitted SQL text follow the source; SQL
query texts that the source writes as multi-line template literals are
collapsed to single-space-separated one-liners here.
-/

set_option autoImplicit false

/-! ## Authorization decision engine (src/middleware/auth.js)

The middleware communicates by invoking the continuation `next`, either
with no argument (proceed) or with an error object.  We model one run of
a middleware as the list of `next` invocations it performs, in order:
`none` is a plain `next()`, `some e` is `next(e)`.
-/

/-- Error objects thrown by the auth middleware.  The classes
UnauthorizedError and ForbiddenError live in expressError.js (not part of
the analyzed sources); only their identity and message matter here. -/
inductive AuthError where
  | unauthorized (msg : String)
  | forbidden (msg : String)
deriving DecidableEq

/-- The token payload stored on res.locals.user: username and isAdmin. -/
structure AuthUser where
  username : String
  isAdmin : Bool
deriving DecidableEq

/-- The request data the middleware inspects: HTTP method, originalUrl,
and req.params.username (`none` when the matched route has no
:username segment, i.e. the JS value is undefined). -/
structure AuthRequest where
  method : String
  originalUrl : String
  paramsUsername : Option String
deriving DecidableEq

/-- Routes where Admin company actions occur (auth.js lines 69-73). -/
def companyActionRoutes : List (String × String) :=
  [("POST", "/"), ("PATCH", "/:handle"), ("DELETE", "/:handle")]

/-- Routes where Admin user actions occur (auth.js lines 76-82). -/
def userActionRoutes : List (String × String) :=
  [("POST", "/user"), ("GET", "/users"), ("GET", "/:username"),
   ("PATCH", "/:username"), ("DELETE", "/:username")]

/-- JavaScript String.prototype.startsWith, expressed on the character
sequences of the two strings. -/
def strStartsWith (s pre : String) : Bool :=
  pre.toList.isPrefixOf s.toList

/-- auth.js isAdminActionRoute: concatenates the two route lists and
tests whether some entry has the request method and a path that is a
prefix of req.originalUrl (String startsWith, as in the source). -/
def isAdminActionRoute (req : AuthRequest) : Bool :=
  (companyActionRoutes ++ userActionRoutes).any fun route =>
    route.1 == req.method && strStartsWith req.originalUrl route.2

/-- auth.js ensureAuthenticatedAsSelf: throws Unauthorized when no user,
throws Forbidden when the authenticated username differs from
req.params.username (a strict !== comparison, so an absent path segment
always mismatches), otherwise calls next().  Thrown errors are caught
locally and passed to next(err); the result is the list of next
invocations. -/
def ensureAuthenticatedAsSelf (user : Option AuthUser) (req : AuthRequest) :
    List (Option AuthError) :=
  match user with
  | none => [some (.unauthorized "Authentication required")]
  | some u =>
    if (some u.username : Option String) ≠ req.paramsUsername then
      [some (.forbidden "You do not have permission to perform this action.")]
    else
      [none]

/-- auth.js ensureLoggedIn: throws Unauthorized when no user; on an admin
action route throws Forbidden for non-admins; otherwise it first runs
ensureAuthenticatedAsSelf (which performs its own next calls) and then,
falling out of the if/else, unconditionally executes `return next()` on
line 59 - hence the appended `[none]`. -/
def ensureLoggedIn (user : Option AuthUser) (req : AuthRequest) :
    List (Option AuthError) :=
  match user with
  | none => [some (.unauthorized "Authentication required")]
  | some u =>
    if isAdminActionRoute req then
      if !u.isAdmin then
        [some (.forbidden "Admin privileges required")]
      else
        [none]
    else
      ensureAuthenticatedAsSelf (some u) req ++ [none]

/-- The three outcomes of the authorization decision table. -/
inductive Decision where
  | allow
  | denyUnauthenticated
  | denyForbidden
deriving DecidableEq

/-- Classify a single next invocation. -/
def signalDecision : Option AuthError → Decision
  | none => .allow
  | some (.unauthorized _) => .denyUnauthenticated
  | some (.forbidden _) => .denyForbidden

/-- The decision produced by the engine for a request: the first
continuation invocation is what drives the framework routing (a later
stray invocation is an anomaly, treated separately).  ensureLoggedIn
always invokes the continuation at least once, so the default is never
consulted. -/
def decision (user : Option AuthUser) (req : AuthRequest) : Decision :=
  signalDecision ((ensureLoggedIn user req).headD none)

/-! ## SQL values and the filter clause builders (src/unnamed/part_000) -/

/-- A bind value handed to db.query.  JavaScript undefined/null binds are
`null`; equity compares against Rat-valued columns so a numeric
constructor over Rat is included for insert parameters. -/
inductive SqlVal where
  | null
  | str (s : String)
  | int (n : Int)
  | bool (b : Bool)
  | num (q : Rat)
deriving DecidableEq

/-- Lift an optional integer (a possibly-undefined JS number) to a bind
value. -/
def SqlVal.ofOptInt : Option Int → SqlVal
  | some n => .int n
  | none => .null

/-- Lift an optional string to a bind value. -/
def SqlVal.ofOptStr : Option String → SqlVal
  | some s => .str s
  | none => .null

/-- Lift an optional rational to a bind value. -/
def SqlVal.ofOptNum : Option Rat → SqlVal
  | some q => .num q
  | none => .null

/-- Optional filters accepted by Company.findAll. -/
structure CompanyFilters where
  name : Option String
  minEmployees : Option Int
  maxEmployees : Option Int
deriving DecidableEq

/-- Optional filters accepted by Job.findAll. -/
structure JobFilters where
  title : Option String
  minSalary : Option Int
  hasEquity : Option Bool
deriving DecidableEq

/-- Predicates Company.findAll can append; each carries the positional
placeholder index written into the query text. -/
inductive CCond where
  | likeName (i : Nat)
  | geEmp (i : Nat)
  | leEmp (i : Nat)
deriving DecidableEq

/-- The placeholder index a company predicate references. -/
def CCond.idx : CCond → Nat
  | .likeName i => i
  | .geEmp i => i
  | .leEmp i => i

/-- Predicates Job.findAll can append.  gtEquityZero is the literal
comparison `equity > 0` and references no placeholder. -/
inductive JCond where
  | likeTitle (i : Nat)
  | geSalary (i : Nat)
  | gtEquityZero
deriving DecidableEq

/-- The placeholder indices a job predicate references (none for the
literal equity comparison). -/
def JCond.idxs : JCond → List Nat
  | .likeTitle i => [i]
  | .geSalary i => [i]
  | .gtEquityZero => []

/-- The state a findAll builder accumulates: the text appended after the
base SELECT, the structured predicates (mirroring that text), and the
values array pushed in the same order as in the source. -/
structure BuiltQuery (Cond : Type) where
  fragment : String
  conds : List Cond
  values : List SqlVal
deriving DecidableEq

/-- All placeholder indices occurring in a built job query, in emission
order. -/
def jobPlaceholderIdxs (b : BuiltQuery JCond) : List Nat :=
  b.conds.flatMap JCond.idxs

/-- All placeholder indices occurring in a built company query, in
emission order. -/
def companyPlaceholderIdxs (b : BuiltQuery CCond) : List Nat :=
  b.conds.map CCond.idx

/-- Company.findAll name criterion (part_000 lines 78-81): `if (name)` -
in JavaScript both undefined and the empty string are falsy.  Appends
`WHERE LOWER(name) LIKE LOWER($1)` and pushes the wildcard-wrapped
pattern. -/
def companyNameStep (name : Option String) (q : BuiltQuery CCond) :
    BuiltQuery CCond :=
  match name with
  | some nm =>
    if nm != "" then
      ⟨q.fragment ++ " WHERE LOWER(name) LIKE LOWER($1)",
       q.conds ++ [CCond.likeName 1],
       q.values ++ [SqlVal.str ("%" ++ nm ++ "%")]⟩
    else q
  | none => q

/-- Company.findAll minEmployees criterion (part_000 lines 84-100):
`if (minEmployees)` - undefined and 0 are falsy.  When the values array
is empty the source appends the literal text `WHERE num_employees >= $2`
(a hard-coded index 2); otherwise it appends
`AND num_employees >= $(values.length + 1)`.  The value is pushed in
both branches. -/
def companyMinStep (minEmployees : Option Int) (q : BuiltQuery CCond) :
    BuiltQuery CCond :=
  match minEmployees with
  | some m =>
    if m != 0 then
      if q.values.length == 0 then
        ⟨q.fragment ++ " WHERE num_employees >= $2",
         q.conds ++ [CCond.geEmp 2],
         q.values ++ [SqlVal.int m]⟩
      else
        ⟨q.fragment ++ " AND num_employees >= $" ++ toString (q.values.length + 1),
         q.conds ++ [CCond.geEmp (q.values.length + 1)],
         q.values ++ [SqlVal.int m]⟩
    else q
  | none => q

/-- Company.findAll maxEmployees criterion (part_000 lines 104-120):
same shape as companyMinStep; the empty-values branch appends the
literal `WHERE num_employees <=$2` (hard-coded index 2, and no space
after <= in the source text). -/
def companyMaxStep (maxEmployees : Option Int) (q : BuiltQuery CCond) :
    BuiltQuery CCond :=
  match maxEmployees with
  | some m =>
    if m != 0 then
      if q.values.length == 0 then
        ⟨q.fragment ++ " WHERE num_employees <=$2",
         q.conds ++ [CCond.leEmp 2],
         q.values ++ [SqlVal.int m]⟩
      else
        ⟨q.fragment ++ " AND num_employees <= $" ++ toString (q.values.length + 1),
         q.conds ++ [CCond.leEmp (q.values.length + 1)],
         q.values ++ [SqlVal.int m]⟩
    else q
  | none => q

/-- Company.findAll filter construction: the three criteria are tested
in source order (name, minEmployees, maxEmployees) starting from an
empty fragment and empty values array. -/
def Company.findAllBuild (filters : CompanyFilters) : BuiltQuery CCond :=
  companyMaxStep filters.maxEmployees
    (companyMinStep filters.minEmployees
      (companyNameStep filters.name ⟨"", [], []⟩))

/-- Job.findAll title criterion (part_000 lines 297-300): `if (title)` -
undefined and the empty string are falsy. -/
def jobTitleStep (title : Option String) (q : BuiltQuery JCond) :
    BuiltQuery JCond :=
  match title with
  | some t =>
    if t != "" then
      ⟨q.fragment ++ " WHERE LOWER(title) LIKE LOWER($1)",
       q.conds ++ [JCond.likeTitle 1],
       q.values ++ [SqlVal.str ("%" ++ t ++ "%")]⟩
    else q
  | none => q

/-- Job.findAll minSalary criterion (part_000 lines 303-316): guarded by
`minSalary !== undefined`, so any present value (including 0) is used.
The empty-values branch correctly writes `$1`; otherwise the index is
values.length + 1. -/
def jobMinSalaryStep (minSalary : Option Int) (q : BuiltQuery JCond) :
    BuiltQuery JCond :=
  match minSalary with
  | some m =>
    if q.values.length == 0 then
      ⟨q.fragment ++ " WHERE salary >= $1",
       q.conds ++ [JCond.geSalary 1],
       q.values ++ [SqlVal.int m]⟩
    else
      ⟨q.fragment ++ " AND salary >= $" ++ toString (q.values.length + 1),
       q.conds ++ [JCond.geSalary (q.values.length + 1)],
       q.values ++ [SqlVal.int m]⟩
  | none => q

/-- Job.findAll hasEquity criterion (part_000 lines 319-332): guarded by
`hasEquity !== undefined` (both true and false trigger it).  Both
branches append the literal comparison `equity > 0` with no placeholder,
yet the source still pushes the hasEquity value onto the values array. -/
def jobHasEquityStep (hasEquity : Option Bool) (q : BuiltQuery JCond) :
    BuiltQuery JCond :=
  match hasEquity with
  | some hb =>
    if q.values.length == 0 then
      ⟨q.fragment ++ " WHERE equity > 0",
       q.conds ++ [JCond.gtEquityZero],
       q.values ++ [SqlVal.bool hb]⟩
    else
      ⟨q.fragment ++ " AND equity > 0",
       q.conds ++ [JCond.gtEquityZero],
       q.values ++ [SqlVal.bool hb]⟩
  | none => q

/-- Job.findAll filter construction: title, then minSalary, then
hasEquity, starting from an empty fragment and empty values array. -/
def Job.findAllBuild (filters : JobFilters) : BuiltQuery JCond :=
  jobHasEquityStep filters.hasEquity
    (jobMinSalaryStep filters.minSalary
      (jobTitleStep filters.title ⟨"", [], []⟩))

/-! ## Query execution model

A parameterized query is sent to PostgreSQL as text plus an ordered bind
list.  The server derives the statement parameters from the placeholders
occurring in the text: every referenced index must lie within the bind
list, the bind list length must equal the statement parameter count, and
every parameter from 1 up to that count must actually occur in the text
(an unreferenced parameter has no determinable type and is rejected at
prepare time).  A query violating these rules fails with a database
error. -/
def paramsCover (idxs : List Nat) (n : Nat) : Bool :=
  idxs.all (fun i => decide (1 ≤ i) && decide (i ≤ n)) &&
    (List.range n).all (fun j => idxs.contains (j + 1))

/-- A row of the companies table, in the projection Company.findAll
selects.  num_employees and logo_url are nullable. -/
structure CompanyRow where
  handle : String
  name : String
  description : String
  numEmployees : Option Int
  logoUrl : Option String
deriving DecidableEq

/-- A row of the jobs table.  equity is a nullable numeric column. -/
structure JobRow where
  id : Int
  title : String
  salary : Option Int
  equity : Option Rat
  companyHandle : String
deriving DecidableEq

/-- Boolean infix test on lists (contiguous subsequence). -/
def listIsInfixOf {α : Type} [BEq α] : List α → List α → Bool
  | l₁, [] => l₁.isEmpty
  | l₁, a :: as => l₁.isPrefixOf (a :: as) || listIsInfixOf l₁ as

/-- SQL LIKE matching for the one pattern shape the builders emit: a
pattern wrapped in percent wildcards on both sides matches any string
containing the inner text. -/
def likeContains (pat target : String) : Bool :=
  let chars := pat.toList
  let chars := if chars.head? == some '%' then chars.drop 1 else chars
  let chars := if chars.getLast? == some '%' then chars.dropLast else chars
  listIsInfixOf chars target.toList

/-- Whether the bind value a company predicate references has the column
type the comparison needs (text for LIKE, integer for the employee-count
comparisons). -/
def companyCondTyOk (values : List SqlVal) : CCond → Bool
  | .likeName i =>
    match values.get? (i - 1) with
    | some (.str _) => true
    | _ => false
  | .geEmp i =>
    match values.get? (i - 1) with
    | some (.int _) => true
    | _ => false
  | .leEmp i =>
    match values.get? (i - 1) with
    | some (.int _) => true
    | _ => false

/-- Evaluate a company predicate on a row (SQL three-valued logic: a
comparison against NULL is not true, so the row is filtered out). -/
def companyCondHolds (values : List SqlVal) (row : CompanyRow) : CCond → Bool
  | .likeName i =>
    match values.get? (i - 1) with
    | some (.str pat) => likeContains pat.toLower row.name.toLower
    | _ => false
  | .geEmp i =>
    match row.numEmployees, values.get? (i - 1) with
    | some n, some (.int m) => decide (m ≤ n)
    | _, _ => false
  | .leEmp i =>
    match row.numEmployees, values.get? (i - 1) with
    | some n, some (.int m) => decide (n ≤ m)
    | _, _ => false

/-- Whether the bind value a job predicate references has the needed
type; the literal equity comparison references none. -/
def jobCondTyOk (values : List SqlVal) : JCond → Bool
  | .likeTitle i =>
    match values.get? (i - 1) with
    | some (.str _) => true
    | _ => false
  | .geSalary i =>
    match values.get? (i - 1) with
    | some (.int _) => true
    | _ => false
  | .gtEquityZero => true

/-- Evaluate a job predicate on a row. -/
def jobCondHolds (values : List SqlVal) (row : JobRow) : JCond → Bool
  | .likeTitle i =>
    match values.get? (i - 1) with
    | some (.str pat) => likeContains pat.toLower row.title.toLower
    | _ => false
  | .geSalary i =>
    match row.salary, values.get? (i - 1) with
    | some s, some (.int m) => decide (m ≤ s)
    | _, _ => false
  | .gtEquityZero =>
    match row.equity with
    | some e => decide ((0 : Rat) < e)
    | none => false

/-- Failures a repository operation can produce.  BadRequestError and
NotFoundError are the expressError.js classes the models throw; dbError
is a rejection coming from the database driver itself. -/
inductive RepoError where
  | badRequest (msg : String)
  | notFound (msg : String)
  | dbError (msg : String)
deriving DecidableEq

/-- Execute a built company filter query against the table contents:
reject it when the placeholder/bind-list discipline is violated,
otherwise keep the rows satisfying every predicate. -/
def runCompanySelect (rows : List CompanyRow) (conds : List CCond)
    (values : List SqlVal) : Except RepoError (List CompanyRow) :=
  if paramsCover (conds.map CCond.idx) values.length &&
      conds.all (companyCondTyOk values) then
    .ok (rows.filter fun r => conds.all (companyCondHolds values r))
  else
    .error (.dbError "could not execute parameterized query")

/-- Execute a built job filter query against the table contents. -/
def runJobSelect (rows : List JobRow) (conds : List JCond)
    (values : List SqlVal) : Except RepoError (List JobRow) :=
  if paramsCover (conds.flatMap JCond.idxs) values.length &&
      conds.all (jobCondTyOk values) then
    .ok (rows.filter fun r => conds.all (jobCondHolds values r))
  else
    .error (.dbError "could not execute parameterized query")

/-- The database contents: the two tables plus the next value of the
jobs id sequence (the serial primary key). -/
structure DbState where
  companies : List CompanyRow
  jobs : List JobRow
  nextJobId : Int
deriving DecidableEq

/-- The observable outcome of one repository operation: its returned
value or failure, the database contents afterwards, and the queries it
sent to db.query (query text plus bind values, in execution order). -/
structure OpResult (α : Type) where
  result : Except RepoError α
  state : DbState
  queries : List (String × List SqlVal)

/-- Insertion into a list sorted by the given boolean ordering. -/
def insertSorted {α : Type} (leb : α → α → Bool) (a : α) : List α → List α
  | [] => [a]
  | b :: bs => if leb a b then a :: b :: bs else b :: insertSorted leb a bs

/-- Insertion sort, modelling an ORDER BY clause. -/
def sortBy {α : Type} (leb : α → α → Bool) (l : List α) : List α :=
  l.foldr (insertSorted leb) []

/-- The base projection of Company.findAll (part_000 lines 62-68). -/
def companyBaseQuery : String :=
  "SELECT handle, name, description, num_employees AS \"numEmployees\", logo_url AS \"logoUrl\" FROM companies"

/-- Company.findAll (part_000 lines 56-129): build the filter fragment,
append ORDER BY name, and execute. -/
def Company.findAll (st : DbState) (filters : CompanyFilters) :
    OpResult (List CompanyRow) :=
  let b := Company.findAllBuild filters
  let query := companyBaseQuery ++ b.fragment ++ " ORDER BY name"
  { result := (runCompanySelect st.companies b.conds b.values).map
      (sortBy fun a b => compare a.name b.name != Ordering.gt)
    state := st
    queries := [(query, b.values)] }

/-- The base projection of Job.findAll (part_000 lines 286-292). -/
def jobBaseQuery : String :=
  "SELECT id, title, salary, equity, company_handle AS \"companyHandle\" FROM jobs"

/-- Job.findAll (part_000 lines 281-339): build the filter fragment,
append ORDER BY title, and execute. -/
def Job.findAll (st : DbState) (filters : JobFilters) :
    OpResult (List JobRow) :=
  let b := Job.findAllBuild filters
  let query := jobBaseQuery ++ b.fragment ++ " ORDER BY title"
  { result := (runJobSelect st.jobs b.conds b.values).map
      (sortBy fun a b => compare a.title b.title != Ordering.gt)
    state := st
    queries := [(query, b.values)] }

/-- The duplicate check query of Company.create (part_000 lines 20-24). -/
def companyDupCheckSql : String :=
  "SELECT handle FROM companies WHERE handle = $1"

/-- The insert statement of Company.create (part_000 lines 29-41). -/
def companyInsertSql : String :=
  "INSERT INTO companies (handle, name, description, num_employees, logo_url) VALUES ($1, $2, $3, $4, $5) RETURNING handle, name, description, num_employees AS \"numEmployees\", logo_url AS \"logoUrl\""

/-- Company.create (part_000 lines 19-45): query for an existing row
with the same handle; throw BadRequestError when one exists, otherwise
insert and return the new row. -/
def Company.create (st : DbState) (handle name description : String)
    (numEmployees : Option Int) (logoUrl : Option String) :
    OpResult CompanyRow :=
  if st.companies.any (fun c => c.handle == handle) then
    { result := .error (.badRequest ("Duplicate company: " ++ handle))
      state := st
      queries := [(companyDupCheckSql, [SqlVal.str handle])] }
  else
    let row : CompanyRow := ⟨handle, name, description, numEmployees, logoUrl⟩
    { result := .ok row
      state := { st with companies := st.companies ++ [row] }
      queries :=
        [(companyDupCheckSql, [SqlVal.str handle]),
         (companyInsertSql,
          [SqlVal.str handle, SqlVal.str name, SqlVal.str description,
           SqlVal.ofOptInt numEmployees, SqlVal.ofOptStr logoUrl])] }

/-- The duplicate check query of Job.create (part_000 lines 249-254). -/
def jobDupCheckSql : String :=
  "SELECT id FROM jobs WHERE title = $1 AND company_handle = $2"

/-- The insert statement of Job.create (part_000 lines 260-266). -/
def jobInsertSql : String :=
  "INSERT INTO jobs (title, salary, equity, company_handle) VALUES ($1, $2, $3, $4) RETURNING id, title, salary, equity, company_handle AS \"companyHandle\""

/-- Job.create (part_000 lines 248-270): query for an existing row with
the same title and company_handle pair; throw BadRequestError when one
exists, otherwise insert (the id comes from the serial sequence) and
return the new row. -/
def Job.create (st : DbState) (title : String) (salary : Option Int)
    (equity : Option Rat) (companyHandle : String) : OpResult JobRow :=
  if st.jobs.any (fun j => j.title == title && j.companyHandle == companyHandle) then
    { result := .error (.badRequest ("Duplicate job: " ++ title))
      state := st
      queries := [(jobDupCheckSql, [SqlVal.str title, SqlVal.str companyHandle])] }
  else
    let row : JobRow := ⟨st.nextJobId, title, salary, equity, companyHandle⟩
    { result := .ok row
      state := { st with jobs := st.jobs ++ [row], nextJobId := st.nextJobId + 1 }
      queries :=
        [(jobDupCheckSql, [SqlVal.str title, SqlVal.str companyHandle]),
         (jobInsertSql,
          [SqlVal.str title, SqlVal.ofOptInt salary, SqlVal.ofOptNum equity,
           SqlVal.str companyHandle])] }

/-! ## Partial update clause builder (src/unnamed/part_001) -/

/-- JavaScript map-with-index over a list, carrying the running index. -/
def mapWithIdx {α β : Type} (f : Nat → α → β) : Nat → List α → List β
  | _, [] => []
  | i, a :: as => f i a :: mapWithIdx f (i + 1) as

/-- The column-name translation of part_001 line 36, the expression
jsToSql[colName] || colName: use the mapped column name when present and
truthy (a present empty string is falsy in JavaScript), otherwise the
field name itself. -/
def translateCol (jsToSql : List (String × String)) (colName : String) : String :=
  match jsToSql.lookup colName with
  | some col => if col != "" then col else colName
  | none => colName

/-- sqlForPartialUpdate (part_001 lines 30-43).  The dataToUpdate object
is modelled as a list of key-value pairs in its iteration order;
Object.keys and Object.values enumerate in that same order.  Throws
BadRequestError "No data" when there are no keys; otherwise emits one
assignment per key with 1-based placeholder indices and returns the
joined SET clause plus the values. -/
def sqlForPartialUpdate (dataToUpdate : List (String × SqlVal))
    (jsToSql : List (String × String)) : Except RepoError (String × List SqlVal) :=
  let keys := dataToUpdate.map Prod.fst
  if keys.length == 0 then
    .error (.badRequest "No data")
  else
    let cols := mapWithIdx
      (fun idx colName =>
        "\"" ++ translateCol jsToSql colName ++ "\"=$" ++ toString (idx + 1))
      0 keys
    .ok (String.intercalate ", " cols, dataToUpdate.map Prod.snd)

/-- The translation table Company.update passes to sqlForPartialUpdate
(part_000 lines 189-192). -/
def companyJsToSql : List (String × String) :=
  [("numEmployees", "num_employees"), ("logoUrl", "logo_url")]

/-- Interpretation of the generated SET assignments on a company row:
each recognized field updates its column; values of an unexpected type
leave the row unchanged (no claim depends on this part). -/
def applyCompanyUpdate (row : CompanyRow) (data : List (String × SqlVal)) :
    CompanyRow :=
  data.foldl
    (fun r kv =>
      match kv with
      | ("name", .str v) => { r with name := v }
      | ("description", .str v) => { r with description := v }
      | ("numEmployees", .int v) => { r with numEmployees := some v }
      | ("numEmployees", .null) => { r with numEmployees := none }
      | ("logoUrl", .str v) => { r with logoUrl := some v }
      | ("logoUrl", .null) => { r with logoUrl := none }
      | _ => r)
    row

/-- The RETURNING clause of the Company.update statement. -/
def companyUpdateReturningSql : String :=
  " RETURNING handle, name, description, num_employees AS \"numEmployees\", logo_url AS \"logoUrl\""

/-- Company.update (part_000 lines 186-209): build the SET clause (a
BadRequestError from the builder propagates before any query executes),
append the handle placeholder at index values.length + 1, execute, and
throw NotFoundError when no row matches. -/
def Company.update (st : DbState) (handle : String)
    (data : List (String × SqlVal)) : OpResult CompanyRow :=
  match sqlForPartialUpdate data companyJsToSql with
  | .error e => { result := .error e, state := st, queries := [] }
  | .ok (setCols, values) =>
    let handleVarIdx := "$" ++ toString (values.length + 1)
    let querySql := "UPDATE companies SET " ++ setCols ++ " WHERE handle = " ++
      handleVarIdx ++ companyUpdateReturningSql
    let queries := [(querySql, values ++ [SqlVal.str handle])]
    match st.companies.find? (fun c => c.handle == handle) with
    | none =>
      { result := .error (.notFound ("No company: " ++ handle))
        state := st, queries := queries }
    | some row =>
      let updated := applyCompanyUpdate row data
      let newCompanies :=
        st.companies.map (fun c => if c.handle == handle then updated else c)
      { result := .ok updated
        state := { st with companies := newCompanies }
        queries := queries }

/-- Interpretation of the generated SET assignments on a job row. -/
def applyJobUpdate (row : JobRow) (data : List (String × SqlVal)) : JobRow :=
  data.foldl
    (fun r kv =>
      match kv with
      | ("title", .str v) => { r with title := v }
      | ("salary", .int v) => { r with salary := some v }
      | ("salary", .null) => { r with salary := none }
      | ("equity", .num v) => { r with equity := some v }
      | ("equity", .null) => { r with equity := none }
      | _ => r)
    row

/-- The RETURNING clause of the Job.update statement. -/
def jobUpdateReturningSql : String :=
  " RETURNING id, title, salary, equity, company_handle AS \"companyHandle\""

/-- Job.update (part_000 lines 378-394): the source calls
sqlForPartialUpdate(data) with the default empty translation table. -/
def Job.update (st : DbState) (id : Int) (data : List (String × SqlVal)) :
    OpResult JobRow :=
  match sqlForPartialUpdate data [] with
  | .error e => { result := .error e, state := st, queries := [] }
  | .ok (setCols, values) =>
    let idVarIdx := "$" ++ toString (values.length + 1)
    let querySql := "UPDATE jobs SET " ++ setCols ++ " WHERE id = " ++
      idVarIdx ++ jobUpdateReturningSql
    let queries := [(querySql, values ++ [SqlVal.int id])]
    match st.jobs.find? (fun j => j.id == id) with
    | none =>
      { result := .error (.notFound ("No job with ID: " ++ toString id))
        state := st, queries := queries }
    | some row =>
      let updated := applyJobUpdate row data
      let newJobs := st.jobs.map (fun j => if j.id == id then updated else j)
      { result := .ok updated
        state := { st with jobs := newJobs }
        queries := queries }

/-! ## Theorems -/

/-- Claim C1: every placeholder index emitted by the filter builders is
computed from the live length of the bind-value list at the moment of
the append (index = current length + 1), giving indices exactly 1..n.
This fails on the code: Company.findAll hard-codes the index 2 in its
empty-bind-list branches, so minEmployees alone yields index 2 with a
single bind value (index 1 skipped), and minEmployees with maxEmployees
yields indices 2 and 2 (index 1 skipped, index 2 reused). -/
theorem c1_placeholder_not_live_length :
    companyPlaceholderIdxs (Company.findAllBuild ⟨none, some 50, none⟩) = [2] ∧
    (Company.findAllBuild ⟨none, some 50, none⟩).values.length = 1 ∧
    companyPlaceholderIdxs (Company.findAllBuild ⟨none, some 50, none⟩) ≠
      List.range' 1 (Company.findAllBuild ⟨none, some 50, none⟩).values.length ∧
    companyPlaceholderIdxs (Company.findAllBuild ⟨none, some 50, some 10⟩) = [2, 2] ∧
    (Company.findAllBuild ⟨none, some 50, some 10⟩).values.length = 2 := by
  decide

/-- A table with one company of exactly 10 employees, for the
inconsistent-range scenario. -/
def c5State : DbState :=
  ⟨[⟨"ten", "Ten Co", "exactly ten employees", some 10, none⟩], [], 1⟩

/-- Claim C5: Company.findAll with minEmployees = 50 and maxEmployees =
10 returns an empty sequence, not an error.  On the code the generated
query text is WHERE num_employees >= $2 AND num_employees <= $2 with
bind values [50, 10]: parameter 1 is never referenced, so the execution
fails with a database error instead of returning an empty list. -/
theorem c5_inconsistent_range_is_db_error :
    (Company.findAll c5State ⟨none, some 50, some 10⟩).result =
      .error (.dbError "could not execute parameterized query") ∧
    (Company.findAllBuild ⟨none, some 50, some 10⟩).fragment =
      " WHERE num_employees >= $2 AND num_employees <= $2" ∧
    (Company.findAllBuild ⟨none, some 50, some 10⟩).values =
      [SqlVal.int 50, SqlVal.int 10] := by
  exact ⟨rfl, rfl, rfl⟩

/-- Claim C3: the authorization decision table.  Principal absent denies
with Unauthenticated; a present non-privileged principal on an admin
action route is denied with Forbidden; on a non-admin action the
decision is Allow when the trailing username segment equals the
principal identifier and Forbidden when it differs.  The decision is the
first continuation invocation the engine performs. -/
theorem c3_decision_table (req : AuthRequest) :
    decision none req = .denyUnauthenticated ∧
    (∀ u : AuthUser, u.isAdmin = false → isAdminActionRoute req = true →
      decision (some u) req = .denyForbidden) ∧
    (∀ u : AuthUser, u.isAdmin = false → isAdminActionRoute req = false →
      req.paramsUsername = some u.username → decision (some u) req = .allow) ∧
    (∀ u : AuthUser, u.isAdmin = false → isAdminActionRoute req = false →
      req.paramsUsername ≠ some u.username →
      decision (some u) req = .denyForbidden) := by
  refine ⟨rfl, ?_, ?_, ?_⟩
  · intro u hAdmin hRoute
    simp [decision, ensureLoggedIn, hRoute, hAdmin, signalDecision]
  · intro u hAdmin hRoute hMatch
    simp [decision, ensureLoggedIn, hRoute, ensureAuthenticatedAsSelf, hMatch,
      signalDecision]
  · intro u hAdmin hRoute hMismatch
    simp [decision, ensureLoggedIn, hRoute, ensureAuthenticatedAsSelf,
      hMismatch.symm, signalDecision]

/-- Concrete instances of the four rows of the decision table. -/
theorem c3_decision_table_witness :
    decision (some ⟨"alice", false⟩) ⟨"PUT", "/users/alice", some "alice"⟩ =
      .allow ∧
    decision none ⟨"GET", "/jobs", none⟩ = .denyUnauthenticated ∧
    decision (some ⟨"alice", false⟩) ⟨"GET", "/users", none⟩ =
      .denyForbidden ∧
    decision (some ⟨"alice", false⟩) ⟨"PUT", "/users/bob", some "bob"⟩ =
      .denyForbidden := by
  refine ⟨?_, ?_, ?_, ?_⟩
  · exact (c3_decision_table ⟨"PUT", "/users/alice", some "alice"⟩).2.2.1
      ⟨"alice", false⟩ rfl (by decide) rfl
  · exact (c3_decision_table ⟨"GET", "/jobs", none⟩).1
  · exact (c3_decision_table ⟨"GET", "/users", none⟩).2.1
      ⟨"alice", false⟩ rfl (by decide)
  · exact (c3_decision_table ⟨"PUT", "/users/bob", some "bob"⟩).2.2.2
      ⟨"alice", false⟩ rfl (by decide) (by decide)

/-- Claim C4: a request that carries a principal, is not classified as
an admin action, and has no trailing username path segment falls through
to the self-access comparison against the undefined segment, which
mismatches, so the decision is DENY(forbidden). -/
theorem c4_no_username_segment_forbidden (u : AuthUser) (req : AuthRequest)
    (hseg : req.paramsUsername = none)
    (hroute : isAdminActionRoute req = false) :
    decision (some u) req = .denyForbidden := by
  simp [decision, ensureLoggedIn, hroute, ensureAuthenticatedAsSelf, hseg,
    signalDecision]

/-- Concrete instance of the fallthrough denial. -/
theorem c4_no_username_segment_forbidden_witness :
    decision (some ⟨"alice", false⟩) ⟨"GET", "/companies", none⟩ =
      .denyForbidden :=
  c4_no_username_segment_forbidden ⟨"alice", false⟩ ⟨"GET", "/companies", none⟩
    rfl (by decide)

/-- Claim C9: the declared admin entry with method POST and path "/" is
matched by a prefix test, and every request path starts with "/", so
every POST request is classified as an admin action and every
authenticated non-admin principal issuing a POST is denied with
Forbidden, whatever resource it targets. -/
theorem c9_every_post_is_admin_route (req : AuthRequest)
    (hm : req.method = "POST")
    (hu : strStartsWith req.originalUrl "/" = true) :
    isAdminActionRoute req = true ∧
    ∀ u : AuthUser, u.isAdmin = false →
      decision (some u) req = .denyForbidden := by
  have hroute : isAdminActionRoute req = true := by
    simp [isAdminActionRoute, companyActionRoutes, userActionRoutes, hm, hu]
  refine ⟨hroute, fun u hAdmin => ?_⟩
  simp [decision, ensureLoggedIn, hroute, hAdmin, signalDecision]

/-- Concrete instance: a POST to the jobs collection by a non-admin. -/
theorem c9_every_post_is_admin_route_witness :
    isAdminActionRoute ⟨"POST", "/jobs", none⟩ = true ∧
    decision (some ⟨"bob", false⟩) ⟨"POST", "/jobs", none⟩ = .denyForbidden := by
  have h := c9_every_post_is_admin_route ⟨"POST", "/jobs", none⟩ rfl (by decide)
  exact ⟨h.1, h.2 ⟨"bob", false⟩ rfl⟩

/-- Claim C10: when a principal is present and the request is not an
admin action, ensureLoggedIn signals twice: ensureAuthenticatedAsSelf
invokes the continuation (with a Forbidden error on an identifier
mismatch, with no error on a match), and then line 59 of ensureLoggedIn
unconditionally invokes it again with no error. -/
theorem c10_double_continuation (u : AuthUser) (req : AuthRequest)
    (hroute : isAdminActionRoute req = false) :
    (req.paramsUsername = some u.username →
      ensureLoggedIn (some u) req = [none, none]) ∧
    (req.paramsUsername ≠ some u.username →
      ensureLoggedIn (some u) req =
        [some (.forbidden "You do not have permission to perform this action."),
         none]) := by
  constructor
  · intro h
    simp [ensureLoggedIn, hroute, ensureAuthenticatedAsSelf, h]
  · intro h
    simp [ensureLoggedIn, hroute, ensureAuthenticatedAsSelf, h.symm]

/-- Concrete instances of both double-signal shapes. -/
theorem c10_double_continuation_witness :
    ensureLoggedIn (some ⟨"alice", false⟩) ⟨"GET", "/stuff/alice", some "alice"⟩ =
      [none, none] ∧
    ensureLoggedIn (some ⟨"alice", false⟩) ⟨"GET", "/stuff/bob", some "bob"⟩ =
      [some (.forbidden "You do not have permission to perform this action."),
       none] := by
  constructor
  · exact (c10_double_continuation ⟨"alice", false⟩
      ⟨"GET", "/stuff/alice", some "alice"⟩ (by decide)).1 rfl
  · exact (c10_double_continuation ⟨"alice", false⟩
      ⟨"GET", "/stuff/bob", some "bob"⟩ (by decide)).2 (by decide)

/-- Claim C7: an empty update payload makes the Partial Update Clause
Builder fail with the BadInput error "No data", and both repository
update operations propagate it before any query executes: no database
round-trip occurs and the stored state is unchanged. -/
theorem c7_empty_payload_no_query :
    (∀ jsToSql, sqlForPartialUpdate [] jsToSql =
      .error (.badRequest "No data")) ∧
    (∀ st id, Job.update st id [] =
      { result := .error (.badRequest "No data"), state := st, queries := [] }) ∧
    (∀ st handle, Company.update st handle [] =
      { result := .error (.badRequest "No data"), state := st, queries := [] }) :=
  ⟨fun _ => rfl, fun _ _ => rfl, fun _ _ => rfl⟩

/-- Claim C8: creating a company whose handle already exists, or a job
whose title and company handle pair already exists, fails with the
duplicate-natural-key (Conflict) error naming the duplicate key, the
stored state is unchanged, and the only query executed is the duplicate
check (no INSERT is sent). -/
theorem c8_duplicate_create (st : DbState)
    (handle name description : String) (numEmployees : Option Int)
    (logoUrl : Option String) (title : String) (salary : Option Int)
    (equity : Option Rat) (companyHandle : String) :
    (st.companies.any (fun c => c.handle == handle) = true →
      Company.create st handle name description numEmployees logoUrl =
        { result := .error (.badRequest ("Duplicate company: " ++ handle))
          state := st
          queries := [(companyDupCheckSql, [SqlVal.str handle])] }) ∧
    (st.jobs.any (fun j => j.title == title && j.companyHandle == companyHandle) = true →
      Job.create st title salary equity companyHandle =
        { result := .error (.badRequest ("Duplicate job: " ++ title))
          state := st
          queries := [(jobDupCheckSql,
            [SqlVal.str title, SqlVal.str companyHandle])] }) := by
  constructor
  · intro hdup
    simp [Company.create, hdup]
  · intro hdup
    simp [Job.create, hdup]

/-- A database that already contains the company "acme" and the job
("Dev", "acme"). -/
def c8State : DbState :=
  ⟨[⟨"acme", "Acme", "widgets", none, none⟩],
   [⟨1, "Dev", none, none, "acme"⟩], 2⟩

/-- Concrete duplicate creates against c8State. -/
theorem c8_duplicate_create_witness :
    Company.create c8State "acme" "Acme Again" "more widgets" none none =
      { result := .error (.badRequest ("Duplicate company: " ++ "acme"))
        state := c8State
        queries := [(companyDupCheckSql, [SqlVal.str "acme"])] } ∧
    Job.create c8State "Dev" none none "acme" =
      { result := .error (.badRequest ("Duplicate job: " ++ "Dev"))
        state := c8State
        queries := [(jobDupCheckSql, [SqlVal.str "Dev", SqlVal.str "acme"])] } := by
  have h := c8_duplicate_create c8State "acme" "Acme Again" "more widgets"
    none none "Dev" none none "acme"
  exact ⟨h.1 (by decide), h.2 (by decide)⟩

/-! ## Lemmas for the hasEquity bookkeeping (claim C2) -/

/-- The title step appends one placeholder index and one bind value (or
neither), so it preserves the balance between the two counts. -/
theorem jobTitleStep_balance (t : Option String) (q : BuiltQuery JCond)
    (h : (jobPlaceholderIdxs q).length = q.values.length) :
    (jobPlaceholderIdxs (jobTitleStep t q)).length =
      (jobTitleStep t q).values.length := by
  cases t with
  | none => exact h
  | some s =>
    simp only [jobTitleStep]
    split
    · simp only [jobPlaceholderIdxs] at h ⊢
      simp [JCond.idxs, h]
    · exact h

/-- The minSalary step appends one placeholder index and one bind value
in both of its branches, preserving the balance. -/
theorem jobMinSalaryStep_balance (m : Option Int) (q : BuiltQuery JCond)
    (h : (jobPlaceholderIdxs q).length = q.values.length) :
    (jobPlaceholderIdxs (jobMinSalaryStep m q)).length =
      (jobMinSalaryStep m q).values.length := by
  cases m with
  | none => exact h
  | some m =>
    simp only [jobMinSalaryStep]
    simp only [jobPlaceholderIdxs] at h
    split <;>
      · simp only [jobPlaceholderIdxs]
        simp [JCond.idxs, h]

/-- A present hasEquity criterion appends the literal equity comparison:
no placeholder index, one pushed bind value, and the fragment gains the
text " equity > 0" after the chosen conjunction keyword. -/
theorem jobHasEquityStep_some (hb : Bool) (q : BuiltQuery JCond) :
    jobPlaceholderIdxs (jobHasEquityStep (some hb) q) = jobPlaceholderIdxs q ∧
    (jobHasEquityStep (some hb) q).values.length = q.values.length + 1 ∧
    JCond.gtEquityZero ∈ (jobHasEquityStep (some hb) q).conds ∧
    ∃ s, (jobHasEquityStep (some hb) q).fragment = s ++ " equity > 0" := by
  simp only [jobHasEquityStep]
  split
  · refine ⟨?_, by simp, by simp, ⟨q.fragment ++ " WHERE", ?_⟩⟩
    · simp [jobPlaceholderIdxs, JCond.idxs]
    · have hlit : (" WHERE equity > 0" : String) = " WHERE" ++ " equity > 0" := by
        decide
      exact (congrArg (fun t => q.fragment ++ t) hlit).trans
        (String.append_assoc q.fragment " WHERE" " equity > 0").symm
  · refine ⟨?_, by simp, by simp, ⟨q.fragment ++ " AND", ?_⟩⟩
    · simp [jobPlaceholderIdxs, JCond.idxs]
    · have hlit : (" AND equity > 0" : String) = " AND" ++ " equity > 0" := by
        decide
      exact (congrArg (fun t => q.fragment ++ t) hlit).trans
        (String.append_assoc q.fragment " AND" " equity > 0").symm

/-- Claim C2 as stated is false on the code: with hasEquity alone the
final query text has no placeholder at all, yet the returned bind-value
list has one element (the hasEquity boolean is pushed by the source). -/
theorem c2_has_equity_counterexample :
    (Job.findAllBuild ⟨none, none, some true⟩).fragment = " WHERE equity > 0" ∧
    jobPlaceholderIdxs (Job.findAllBuild ⟨none, none, some true⟩) = [] ∧
    (Job.findAllBuild ⟨none, none, some true⟩).values = [SqlVal.bool true] ∧
    (jobPlaceholderIdxs (Job.findAllBuild ⟨none, none, some true⟩)).length ≠
      (Job.findAllBuild ⟨none, none, some true⟩).values.length := by
  decide

/-- Claim C2 (amended): when hasEquity is present, Job.findAll emits the
predicate equity > 0 as a literal comparison consuming no placeholder
slot, but the hasEquity value is still appended to the bind-value list,
so the number of placeholders in the final query text is one less than
the length of the returned bind-value list. -/
theorem c2_amended_has_equity (filters : JobFilters) (hb : Bool)
    (h : filters.hasEquity = some hb) :
    JCond.gtEquityZero ∈ (Job.findAllBuild filters).conds ∧
    (∃ s, (Job.findAllBuild filters).fragment = s ++ " equity > 0") ∧
    (jobPlaceholderIdxs (Job.findAllBuild filters)).length + 1 =
      (Job.findAllBuild filters).values.length := by
  have hbal := jobMinSalaryStep_balance filters.minSalary
    (jobTitleStep filters.title ⟨"", [], []⟩)
    (jobTitleStep_balance filters.title ⟨"", [], []⟩ rfl)
  unfold Job.findAllBuild
  rw [h]
  obtain ⟨h1, h2, h3, h4⟩ := jobHasEquityStep_some hb
    (jobMinSalaryStep filters.minSalary (jobTitleStep filters.title ⟨"", [], []⟩))
  exact ⟨h3, h4, by rw [h1, h2, hbal]⟩

/-- Concrete instance of the amended claim, with hasEquity = false and a
minSalary criterion also present. -/
theorem c2_amended_has_equity_witness :
    JCond.gtEquityZero ∈ (Job.findAllBuild ⟨none, some 100, some false⟩).conds ∧
    (∃ s, (Job.findAllBuild ⟨none, some 100, some false⟩).fragment =
      s ++ " equity > 0") ∧
    (jobPlaceholderIdxs (Job.findAllBuild ⟨none, some 100, some false⟩)).length
      + 1 = (Job.findAllBuild ⟨none, some 100, some false⟩).values.length :=
  c2_amended_has_equity ⟨none, some 100, some false⟩ false rfl

/-! ## Lemmas for the partial update builder (claim C6) -/

/-- mapWithIdx preserves list length. -/
theorem mapWithIdx_length {α β : Type} (f : Nat → α → β) :
    ∀ (i : Nat) (l : List α), (mapWithIdx f i l).length = l.length
  | _, [] => rfl
  | i, _ :: as => by simp [mapWithIdx, mapWithIdx_length f (i + 1) as]

/-- mapWithIdx over a mapped list fuses the two functions. -/
theorem mapWithIdx_map {α β γ : Type} (f : Nat → β → γ) (g : α → β) :
    ∀ (i : Nat) (l : List α),
      mapWithIdx f i (l.map g) = mapWithIdx (fun k a => f k (g a)) i l
  | _, [] => rfl
  | i, a :: as => by simp [List.map, mapWithIdx, mapWithIdx_map f g (i + 1) as]

/-- The element of mapWithIdx at position k applies f to the running
start index plus k. -/
theorem mapWithIdx_get? {α β : Type} (f : Nat → α → β) :
    ∀ (i k : Nat) (l : List α),
      (mapWithIdx f i l).get? k = (l.get? k).map (f (i + k))
  | _, _, [] => by simp [mapWithIdx]
  | i, 0, a :: as => by simp [mapWithIdx]
  | i, k + 1, a :: as => by
    simp only [mapWithIdx, List.get?]
    rw [mapWithIdx_get? f (i + 1) k as,
      show i + 1 + k = i + (k + 1) from by omega]

/-- The assignment list of the Partial Update Clause Builder as the
specification words it (spec section 4.2): for the entry at 0-based
position idx, emit the translated (or original) column name, quoted,
followed by the placeholder whose 1-based index is idx + 1. -/
def specPartialUpdateAssignments (jsToSql : List (String × String))
    (data : List (String × SqlVal)) : List String :=
  mapWithIdx
    (fun idx entry =>
      "\"" ++ translateCol jsToSql entry.1 ++ "\"=$" ++ toString (idx + 1))
    0 data

/-- On a non-empty payload the builder succeeds and its SET clause is
the intercalation of the specification-side assignment list. -/
theorem sqlForPartialUpdate_ok (data : List (String × SqlVal))
    (jsToSql : List (String × String)) (h : data ≠ []) :
    sqlForPartialUpdate data jsToSql =
      .ok (String.intercalate ", " (specPartialUpdateAssignments jsToSql data),
           data.map Prod.snd) := by
  have hne : ((data.map Prod.fst).length == 0) = false := by
    cases data with
    | nil => exact absurd rfl h
    | cons a as => simp
  simp [sqlForPartialUpdate, hne, h, specPartialUpdateAssignments, mapWithIdx_map]

/-- Claim C6: for a payload with k entries (k at least 1) the builder
emits exactly k assignments, the assignment at 0-based position i is the
translated column name with placeholder index i + 1, the values come
back in entry order, and both repositories append the primary-key
placeholder at index k + 1 in the query they execute. -/
theorem c6_partial_update_contract (data : List (String × SqlVal))
    (jsToSql : List (String × String)) (h : data ≠ []) :
    sqlForPartialUpdate data jsToSql =
      .ok (String.intercalate ", " (specPartialUpdateAssignments jsToSql data),
           data.map Prod.snd) ∧
    (specPartialUpdateAssignments jsToSql data).length = data.length ∧
    (∀ k, (specPartialUpdateAssignments jsToSql data).get? k =
      (data.get? k).map (fun entry =>
        "\"" ++ translateCol jsToSql entry.1 ++ "\"=$" ++ toString (k + 1))) ∧
    (∀ st handle, (Company.update st handle data).queries.map Prod.fst =
      ["UPDATE companies SET " ++
        String.intercalate ", " (specPartialUpdateAssignments companyJsToSql data) ++
        " WHERE handle = " ++ ("$" ++ toString (data.length + 1)) ++
        companyUpdateReturningSql]) ∧
    (∀ st id, (Job.update st id data).queries.map Prod.fst =
      ["UPDATE jobs SET " ++
        String.intercalate ", " (specPartialUpdateAssignments [] data) ++
        " WHERE id = " ++ ("$" ++ toString (data.length + 1)) ++
        jobUpdateReturningSql]) := by
  refine ⟨sqlForPartialUpdate_ok data jsToSql h, mapWithIdx_length _ 0 data,
    ?_, ?_, ?_⟩
  · intro k
    simpa [specPartialUpdateAssignments] using
      mapWithIdx_get? (fun idx entry =>
        "\"" ++ translateCol jsToSql entry.1 ++ "\"=$" ++ toString (idx + 1))
        0 k data
  · intro st handle
    simp only [Company.update, sqlForPartialUpdate_ok data companyJsToSql h]
    cases st.companies.find? (fun c => c.handle == handle) <;>
      simp [List.length_map]
  · intro st id
    simp only [Job.update, sqlForPartialUpdate_ok data [] h]
    cases st.jobs.find? (fun j => j.id == id) <;>
      simp [List.length_map]

/-- Concrete instance: the two-entry payload from the repository's own
helper test, one translated field name and one untranslated. -/
theorem c6_partial_update_contract_witness :
    sqlForPartialUpdate
        [("firstName", SqlVal.str "Aliya"), ("age", SqlVal.int 32)]
        [("firstName", "first_name")] =
      .ok ("\"first_name\"=$1, \"age\"=$2",
           [SqlVal.str "Aliya", SqlVal.int 32]) ∧
    (specPartialUpdateAssignments [("firstName", "first_name")]
      [("firstName", SqlVal.str "Aliya"), ("age", SqlVal.int 32)]).length = 2 := by
  have h := c6_partial_update_contract
    [("firstName", SqlVal.str "Aliya"), ("age", SqlVal.int 32)]
    [("firstName", "first_name")] (by decide)
  refine ⟨?_, h.2.1⟩
  rw [h.1]
  rfl
